import Mathlib

/-!
Verification of the authentication core of the teg-finance repository
(src/backend/auth.py, src/backend/database.py, src/backend/main.py,
src/backend/config.py) against its natural-language specification.

The Python code is shallowly embedded: timestamps become integers
(seconds), the users/sessions tables become lists of records, each
database helper becomes a pure function on that state, and each
request handler becomes a state-transforming function returning its
result together with the new database state.  External cryptographic
primitives (bcrypt, the TOTP code derivation of pyotp) are opaque to
the repository code, so they are passed in as function parameters;
the repository logic around them is translated verbatim.
-/

namespace TegFinance

/-! Timestamps are `Int` seconds: the Python code uses timezone-aware
`datetime` values, but only their ordering and translation by fixed
durations matter to the logic. -/

/-! ## Configuration constants (src/backend/config.py) -/

/-- `Config.MAX_LOGIN_ATTEMPTS = 5`. -/
def MAX_LOGIN_ATTEMPTS : Nat := 5

/-- `Config.LOCKOUT_DURATION = timedelta(minutes=30)`, in seconds. -/
def LOCKOUT_DURATION : Int := 30 * 60

/-- `Config.SESSION_LIFETIME = timedelta(hours=24)`, in seconds. -/
def SESSION_LIFETIME : Int := 24 * 60 * 60

/-- `Config.PASSWORD_MIN_LENGTH = 8`. -/
def PASSWORD_MIN_LENGTH : Nat := 8

/-! ## Data model -/

/-- A row of the `users` table, restricted to the columns the
authentication core reads or writes.  `totp_secret` uses the empty
string for SQL NULL: the only inspection the core performs on it is
Python truthiness (`if not secret`), which identifies `None` and `""`. -/
structure User where
  id : Nat
  username : String
  email : String
  password_hash : String
  failed_login_attempts : Nat
  locked_until : Option Int
  totp_secret : String
  totp_enabled : Bool
  password_reset_token : Option String
  password_reset_expires : Option Int
  is_active : Bool
deriving DecidableEq, Repr

/-- A row of the `sessions` table. -/
structure Session where
  user_id : Nat
  session_token : String
  ip_address : String
  user_agent : Option String
  expires_at : Int
deriving DecidableEq, Repr

/-- The mutable database state touched by the authentication core. -/
structure DB where
  users : List User
  sessions : List Session
deriving DecidableEq, Repr

/-! ## Database helpers (src/backend/database.py) -/

/-- `get_user_by_username`: first `users` row with the given username
and `is_active = TRUE`. -/
def get_user_by_username (db : DB) (username : String) : Option User :=
  db.users.find? (fun u => u.username == username && u.is_active)

/-- `get_user_by_id`: first `users` row with the given id and
`is_active = TRUE`. -/
def get_user_by_id (db : DB) (user_id : Nat) : Option User :=
  db.users.find? (fun u => u.id == user_id && u.is_active)

/-- `get_user_by_reset_token`: first active `users` row whose
`password_reset_token` equals the given token (SQL `=` is false on
NULL) with `password_reset_expires > CURRENT_TIMESTAMP`. -/
def get_user_by_reset_token (db : DB) (now : Int) (token : String) : Option User :=
  db.users.find? (fun u =>
    u.password_reset_token == some token
      && (match u.password_reset_expires with
          | some e => now < e
          | none => false)
      && u.is_active)

/-- `update_user_login_attempts(user_id, attempts, locked_until)`:
`UPDATE users SET failed_login_attempts = %s, locked_until = %s WHERE id = %s`. -/
def update_user_login_attempts (db : DB) (user_id : Nat) (attempts : Nat)
    (locked_until : Option Int) : DB :=
  { db with users := db.users.map (fun u =>
      if u.id = user_id then
        { u with failed_login_attempts := attempts, locked_until := locked_until }
      else u) }

/-- `reset_user_login_attempts(user_id)`:
`UPDATE users SET failed_login_attempts = 0, locked_until = NULL WHERE id = %s`. -/
def reset_user_login_attempts (db : DB) (user_id : Nat) : DB :=
  { db with users := db.users.map (fun u =>
      if u.id = user_id then
        { u with failed_login_attempts := 0, locked_until := none }
      else u) }

/-- `update_user_password(user_id, password_hash)`: replaces the hash
and clears the reset-token pair, touching nothing else. -/
def update_user_password (db : DB) (user_id : Nat) (password_hash : String) : DB :=
  { db with users := db.users.map (fun u =>
      if u.id = user_id then
        { u with password_hash := password_hash,
                 password_reset_token := none,
                 password_reset_expires := none }
      else u) }

/-- `create_session`: inserts a new `sessions` row. -/
def create_session (db : DB) (user_id : Nat) (session_token : String)
    (ip_address : String) (user_agent : Option String) (expires_at : Int) : DB :=
  { db with sessions :=
      { user_id := user_id, session_token := session_token,
        ip_address := ip_address, user_agent := user_agent,
        expires_at := expires_at } :: db.sessions }

/-- `delete_user_sessions(user_id)`:
`DELETE FROM sessions WHERE user_id = %s`. -/
def delete_user_sessions (db : DB) (user_id : Nat) : DB :=
  { db with sessions := db.sessions.filter (fun s => !(s.user_id == user_id)) }

/-! ## auth.py pure helpers -/

/-- `is_account_locked(user)` (src/backend/auth.py lines 74-80): false
when `locked_until` is NULL, otherwise true iff the current time is
still before `locked_until`.  A pure read: it takes the row and the
clock and writes nothing. -/
def is_account_locked (now : Int) (user : User) : Bool :=
  match user.locked_until with
  | none => false
  | some locked_until => now < locked_until

/-- Outcome of `authenticate_user` (the dict it returns). -/
inductive AuthResult where
  | error (msg : String)
  | requires2fa (user_id : Nat)
  | success (user : User)
deriving DecidableEq, Repr

/-- Error message for an unknown username (auth.py line 87). -/
def MSG_INVALID : String := "Invalid username or password"

/-- Error message for an attempt against a currently locked account
(auth.py line 92). -/
def MSG_TEMP_LOCKED : String := "Account is temporarily locked. Please try again later."

/-- Error message returned by the attempt that locks the account
(auth.py line 101). -/
def MSG_NOW_LOCKED : String := "Account locked due to too many failed attempts."

/-- Error message for a wrong password below the lockout threshold
(auth.py line 105), with the remaining-attempt count interpolated. -/
def msg_attempts_remaining (remaining : Nat) : String :=
  MSG_INVALID ++ ". " ++ toString remaining ++ " attempts remaining."

/-- `authenticate_user(username, password, ...)` (auth.py lines 83-120).
`checkpw` stands for `bcrypt.checkpw` as wrapped by `verify_password`
(password, stored hash ↦ bool); the clock `now` stands for the calls to
`datetime.now(timezone.utc)`.  Returns the handler outcome and the
database state after the handler's writes. -/
def authenticate_user (checkpw : String → String → Bool) (now : Int)
    (db : DB) (username password : String) : AuthResult × DB :=
  match get_user_by_username db username with
  | none => (.error MSG_INVALID, db)
  | some user =>
    if is_account_locked now user then
      (.error MSG_TEMP_LOCKED, db)
    else if !checkpw password user.password_hash then
      let attempts := user.failed_login_attempts + 1
      if MAX_LOGIN_ATTEMPTS ≤ attempts then
        (.error MSG_NOW_LOCKED,
         update_user_login_attempts db user.id attempts (some (now + LOCKOUT_DURATION)))
      else
        (.error (msg_attempts_remaining (MAX_LOGIN_ATTEMPTS - attempts)),
         update_user_login_attempts db user.id attempts none)
    else if user.totp_enabled then
      (.requires2fa user.id, db)
    else
      (.success user, reset_user_login_attempts db user.id)

/-- Folds a sequence of `authenticate_user` calls (same username and
password, one clock reading per call) over the database state. -/
def authenticate_seq (checkpw : String → String → Bool)
    (username password : String) (db : DB) (times : List Int) : DB :=
  times.foldl (fun d t => (authenticate_user checkpw t d username password).2) db

/-! ## TOTP (src/backend/auth.py lines 44-48, delegating to pyotp) -/

/-- The HOTP code derivation underlying `pyotp.TOTP` — an opaque
cryptographic primitive outside the repository (HMAC-SHA1 digest
truncation): a function from a shared secret and a counter (time step)
to the code string. -/
structure TOTPImpl where
  codeAt : String → Int → String

/-- The TOTP time-step counter for a given clock reading: pyotp's
default 30-second interval, `timecode = int(for_time / interval)`. -/
def totp_timestep (now : Int) : Int := now / 30

/-- Modelled from the spec: `pyotp.TOTP.verify(code, valid_window=1)`
is third-party library code not in the repository.  Per the spec it
"computes the time-step code for `now` and accepts the submitted code
if it matches the current step or either adjacent step (±1 step
tolerance)". -/
def pyotp_verify (impl : TOTPImpl) (secret code : String) (now : Int) : Bool :=
  [(-1 : Int), 0, 1].any (fun offset =>
    impl.codeAt secret (totp_timestep now + offset) == code)

/-- `verify_totp(secret, code)` (auth.py lines 44-48): rejects an
empty secret or empty code outright, otherwise delegates to
`TOTP(secret).verify(code, valid_window=1)`. -/
def verify_totp (impl : TOTPImpl) (now : Int) (secret code : String) : Bool :=
  if secret == "" || code == "" then false
  else pyotp_verify impl secret code now

/-! ## Session issuance (src/backend/auth.py lines 123-135) -/

/-- `create_user_session(user_id, ip_address, user_agent)`: the random
token produced by `generate_session_token()` is passed in as `token`;
the user agent is truncated to 500 characters and an empty one is
stored as NULL; the expiry is `now + SESSION_LIFETIME`. -/
def create_user_session (token : String) (now : Int) (db : DB)
    (user_id : Nat) (ip_address : String) (user_agent : String) : String × DB :=
  (token,
   create_session db user_id token ip_address
     (if user_agent == "" then none else some (user_agent.take 500))
     (now + SESSION_LIFETIME))

/-! ## 2FA completion endpoint (src/backend/main.py lines 287-328) -/

/-- Outcome of the `/api/auth/verify-2fa` handler. -/
inductive VerifyResult where
  | missingParams
  | invalidRequest
  | invalidCode
  | success (session_token : String)
deriving DecidableEq, Repr

/-- `api_verify_2fa` (main.py lines 287-328): requires a non-falsy
code; looks the user up by id; demands `totp_enabled`; verifies the
code against the stored secret; on success creates a session and only
then resets the failed-attempt counter and lock.  No lock check is
performed anywhere on this path. -/
def api_verify_2fa (impl : TOTPImpl) (token : String) (now : Int)
    (db : DB) (user_id : Nat) (code : String)
    (ip_address user_agent : String) : VerifyResult × DB :=
  if code == "" then (.missingParams, db)
  else
    match get_user_by_id db user_id with
    | none => (.invalidRequest, db)
    | some user =>
      if !user.totp_enabled then (.invalidRequest, db)
      else if !verify_totp impl now user.totp_secret code then
        (.invalidCode, db)
      else
        let issued := create_user_session token now db user.id ip_address user_agent
        (.success issued.1, reset_user_login_attempts issued.2 user.id)

/-! ## Password reset endpoint (src/backend/main.py lines 378-418) -/

/-- Outcome of the `/api/auth/reset-password` handler. -/
inductive ResetResult where
  | missingParams
  | tooShort
  | invalidToken
  | success
deriving DecidableEq, Repr

/-- `api_reset_password` (main.py lines 378-418): requires both
fields, enforces the minimum password length before any lookup, looks
the account up by exact unexpired token, and on a hit rehashes the
password (via `hash_password`, modelled by the parameter `hashFn`
since bcrypt salting is an external primitive), clears the token pair
and deletes all of the account's sessions. -/
def api_reset_password (hashFn : String → String) (now : Int)
    (db : DB) (token password : String) : ResetResult × DB :=
  if token == "" || password == "" then (.missingParams, db)
  else if password.length < PASSWORD_MIN_LENGTH then (.tooShort, db)
  else
    match get_user_by_reset_token db now token with
    | none => (.invalidToken, db)
    | some user =>
      let db1 := update_user_password db user.id (hashFn password)
      let db2 := delete_user_sessions db1 user.id
      (.success, db2)

/-! ## Concurrency model for the failed-attempt increment

`authenticate_user` reads `failed_login_attempts` out of the row
fetched by `get_user_by_username`, adds one in Python, and
`update_user_login_attempts` writes the computed value back with a
plain `UPDATE ... SET failed_login_attempts = %s`.  Two concurrent
wrong-password handlers therefore each perform a read step followed by
a write step against the shared database; the model below runs two
such handlers (below the lockout threshold, so `locked_until` is
written as NULL) under an explicit interleaving schedule. -/

/-- Per-handler progress of one wrong-password request: the row it has
fetched (after its read step) and whether it has written. -/
structure HandlerState where
  fetched : Option User
  written : Bool
deriving DecidableEq, Repr

/-- Runs one step of the given handler: its read step
(`get_user_by_username`) if it has not read yet, otherwise its write
step (`update_user_login_attempts` with the Python-computed
`attempts + 1` and no lock, as in auth.py lines 96-104 below the
threshold); a finished handler leaves the state unchanged. -/
def race_step (username : String) (st : DB × HandlerState) : DB × HandlerState :=
  match st.2.fetched with
  | none => (st.1, { fetched := get_user_by_username st.1 username, written := false })
  | some user =>
    if st.2.written then st
    else
      (update_user_login_attempts st.1 user.id (user.failed_login_attempts + 1) none,
       { st.2 with written := true })

/-- Runs two concurrent wrong-password handlers for the same username
under the interleaving `sched` (`false` steps handler A, `true` steps
handler B), returning the final database state. -/
def race_exec (username : String) (db : DB) (sched : List Bool) : DB :=
  (sched.foldl
    (fun (st : DB × HandlerState × HandlerState) tid =>
      if tid then
        let r := race_step username (st.1, st.2.2)
        (r.1, st.2.1, r.2)
      else
        let r := race_step username (st.1, st.2.1)
        (r.1, r.2, st.2.2))
    (db, { fetched := none, written := false }, { fetched := none, written := false })).1

/-! ## Helper lemmas -/

/-- `update_user_login_attempts` changes neither usernames nor
activity flags, so a username lookup afterwards returns the (possibly
updated) row the lookup returned before. -/
theorem get_user_by_username_update_login (db : DB) (username : String)
    (user_id : Nat) (a : Nat) (lu : Option Int) :
    get_user_by_username (update_user_login_attempts db user_id a lu) username
      = (get_user_by_username db username).map (fun u =>
          if u.id = user_id then
            { u with failed_login_attempts := a, locked_until := lu }
          else u) := by
  show List.find? _ (db.users.map _) = _
  rw [List.find?_map]
  have hp : ((fun u : User => u.username == username && u.is_active) ∘ (fun u : User =>
        if u.id = user_id then
          { u with failed_login_attempts := a, locked_until := lu }
        else u))
      = (fun u : User => u.username == username && u.is_active) := by
    funext u
    by_cases h : u.id = user_id <;> simp [h]
  rw [hp]
  rfl

/-- `reset_user_login_attempts` likewise commutes with username lookup. -/
theorem get_user_by_username_reset_login (db : DB) (username : String)
    (user_id : Nat) :
    get_user_by_username (reset_user_login_attempts db user_id) username
      = (get_user_by_username db username).map (fun u =>
          if u.id = user_id then
            { u with failed_login_attempts := 0, locked_until := none }
          else u) := by
  show List.find? _ (db.users.map _) = _
  rw [List.find?_map]
  have hp : ((fun u : User => u.username == username && u.is_active) ∘ (fun u : User =>
        if u.id = user_id then
          { u with failed_login_attempts := 0, locked_until := none }
        else u))
      = (fun u : User => u.username == username && u.is_active) := by
    funext u
    by_cases h : u.id = user_id <;> simp [h]
  rw [hp]
  rfl

/-- Unfolding of `authenticate_user` on the branch that increments the
failure counter below the lockout threshold (auth.py lines 103-106). -/
theorem authenticate_user_wrong_below (checkpw : String → String → Bool)
    (now : Int) (db : DB) (username password : String) (u : User)
    (hfind : get_user_by_username db username = some u)
    (hlock : is_account_locked now u = false)
    (hpw : checkpw password u.password_hash = false)
    (hlt : u.failed_login_attempts + 1 < MAX_LOGIN_ATTEMPTS) :
    authenticate_user checkpw now db username password
      = (.error (msg_attempts_remaining (MAX_LOGIN_ATTEMPTS - (u.failed_login_attempts + 1))),
         update_user_login_attempts db u.id (u.failed_login_attempts + 1) none) := by
  have hnle : ¬ MAX_LOGIN_ATTEMPTS ≤ u.failed_login_attempts + 1 := by omega
  simp [authenticate_user, hfind, hlock, hpw, hnle]

/-- Unfolding of `authenticate_user` on the branch where the failure
counter reaches the threshold and the account is locked for
`LOCKOUT_DURATION` (auth.py lines 98-101). -/
theorem authenticate_user_wrong_locks (checkpw : String → String → Bool)
    (now : Int) (db : DB) (username password : String) (u : User)
    (hfind : get_user_by_username db username = some u)
    (hlock : is_account_locked now u = false)
    (hpw : checkpw password u.password_hash = false)
    (hge : MAX_LOGIN_ATTEMPTS ≤ u.failed_login_attempts + 1) :
    authenticate_user checkpw now db username password
      = (.error MSG_NOW_LOCKED,
         update_user_login_attempts db u.id (u.failed_login_attempts + 1)
           (some (now + LOCKOUT_DURATION))) := by
  simp [authenticate_user, hfind, hlock, hpw, hge]

/-- Unfolding of `authenticate_user` on a currently locked account
(auth.py lines 91-92): the generic locked error and no state change,
whatever the submitted password. -/
theorem authenticate_user_locked (checkpw : String → String → Bool)
    (now : Int) (db : DB) (username password : String) (u : User)
    (hfind : get_user_by_username db username = some u)
    (hlock : is_account_locked now u = true) :
    authenticate_user checkpw now db username password
      = (.error MSG_TEMP_LOCKED, db) := by
  simp [authenticate_user, hfind, hlock]

/-- Unfolding of `authenticate_user` on a successful credential check
without 2FA (auth.py lines 115-120). -/
theorem authenticate_user_success (checkpw : String → String → Bool)
    (now : Int) (db : DB) (username password : String) (u : User)
    (hfind : get_user_by_username db username = some u)
    (hlock : is_account_locked now u = false)
    (hpw : checkpw password u.password_hash = true)
    (htotp : u.totp_enabled = false) :
    authenticate_user checkpw now db username password
      = (.success u, reset_user_login_attempts db u.id) := by
  simp [authenticate_user, hfind, hlock, hpw, htotp]

/-- Unfolding of `authenticate_user` on a successful credential check
with 2FA enabled (auth.py lines 109-113): pending outcome, no writes. -/
theorem authenticate_user_awaiting_2fa (checkpw : String → String → Bool)
    (now : Int) (db : DB) (username password : String) (u : User)
    (hfind : get_user_by_username db username = some u)
    (hlock : is_account_locked now u = false)
    (hpw : checkpw password u.password_hash = true)
    (htotp : u.totp_enabled = true) :
    authenticate_user checkpw now db username password
      = (.requires2fa u.id, db) := by
  simp [authenticate_user, hfind, hlock, hpw, htotp]

/-- An account whose `locked_until` is NULL is never locked. -/
theorem is_account_locked_none (now : Int) (u : User)
    (h : u.locked_until = none) : is_account_locked now u = false := by
  simp [is_account_locked, h]

/-- A run of consecutive wrong-password attempts that stays below the
lockout threshold: each call increments the stored counter by one and
leaves `locked_until` NULL, whatever the call times. -/
theorem authenticate_seq_wrong (checkpw : String → String → Bool)
    (username password : String) (times : List Int) (db : DB) (u : User)
    (hfind : get_user_by_username db username = some u)
    (hl : u.locked_until = none)
    (hpw : checkpw password u.password_hash = false)
    (hbound : u.failed_login_attempts + times.length < MAX_LOGIN_ATTEMPTS) :
    get_user_by_username (authenticate_seq checkpw username password db times) username
      = some { u with
          failed_login_attempts := u.failed_login_attempts + times.length,
          locked_until := none } := by
  induction times generalizing db u with
  | nil =>
    simp only [authenticate_seq, List.foldl_nil, List.length_nil]
    have hu : ({ u with failed_login_attempts := u.failed_login_attempts + 0,
                        locked_until := none } : User) = u := by
      cases u
      simp_all
    rw [hu]
    exact hfind
  | cons t ts ih =>
    have hlock : is_account_locked t u = false := is_account_locked_none t u hl
    have hlt : u.failed_login_attempts + 1 < MAX_LOGIN_ATTEMPTS := by
      simp at hbound
      omega
    have hstep := authenticate_user_wrong_below checkpw t db username password u
      hfind hlock hpw hlt
    have hfind2 :
        get_user_by_username
            (update_user_login_attempts db u.id (u.failed_login_attempts + 1) none) username
          = some { u with failed_login_attempts := u.failed_login_attempts + 1,
                          locked_until := none } := by
      rw [get_user_by_username_update_login, hfind]
      simp
    have hrec := ih
      (update_user_login_attempts db u.id (u.failed_login_attempts + 1) none)
      { u with failed_login_attempts := u.failed_login_attempts + 1, locked_until := none }
      hfind2 rfl hpw (by simp at hbound ⊢; omega)
    have hseq : authenticate_seq checkpw username password db (t :: ts)
        = authenticate_seq checkpw username password
            (update_user_login_attempts db u.id (u.failed_login_attempts + 1) none) ts := by
      simp only [authenticate_seq, List.foldl_cons, hstep]
    rw [hseq, hrec]
    simp
    omega

/-! ## Concrete fixtures used by the witness theorems -/

/-- A password check standing in for bcrypt in concrete runs: the
stored "hash" is the password itself. -/
def wCheckpw : String → String → Bool := fun p h => p == h

/-- A concrete account with a clean failure history. -/
def wUser : User :=
  { id := 1, username := "admin", email := "admin@example.com",
    password_hash := "pw", failed_login_attempts := 0, locked_until := none,
    totp_secret := "", totp_enabled := false, password_reset_token := none,
    password_reset_expires := none, is_active := true }

/-- A concrete database holding just that account. -/
def wDB : DB := { users := [wUser], sessions := [] }

/-! ## Claims -/

/-- C1: starting from an account with `failed_login_attempts = 0` and
no lock, five consecutive wrong-password calls to `authenticate_user`
leave the counter below the threshold for the first four (no lock yet),
and the fifth sets `failed_login_attempts = 5` and
`locked_until = now + LOCKOUT_DURATION` (where `now` is the fifth
call's clock); `is_account_locked` on the resulting row is true exactly
while the lockout endures, every further call before it elapses —
whatever the submitted password, including the correct one — returns
the generic locked error with no state change, and once it has elapsed
the correct password logs in. -/
theorem claim_C1 (checkpw : String → String → Bool) (db : DB) (u : User)
    (username wrongpw goodpw : String) (t1 t2 t3 t4 t5 : Int)
    (hfind : get_user_by_username db username = some u)
    (h0 : u.failed_login_attempts = 0)
    (hl : u.locked_until = none)
    (hwrong : checkpw wrongpw u.password_hash = false) :
    get_user_by_username
        (authenticate_seq checkpw username wrongpw db [t1, t2, t3, t4]) username
      = some { u with failed_login_attempts := 4, locked_until := none }
    ∧ get_user_by_username
        (authenticate_seq checkpw username wrongpw db [t1, t2, t3, t4, t5]) username
      = some { u with failed_login_attempts := 5,
                      locked_until := some (t5 + LOCKOUT_DURATION) }
    ∧ (∀ t : Int,
        is_account_locked t
          { u with failed_login_attempts := 5,
                   locked_until := some (t5 + LOCKOUT_DURATION) }
          = decide (t < t5 + LOCKOUT_DURATION))
    ∧ (∀ (t : Int) (p : String), t < t5 + LOCKOUT_DURATION →
        authenticate_user checkpw t
            (authenticate_seq checkpw username wrongpw db [t1, t2, t3, t4, t5]) username p
          = (.error MSG_TEMP_LOCKED,
             authenticate_seq checkpw username wrongpw db [t1, t2, t3, t4, t5]))
    ∧ (∀ t : Int, t5 + LOCKOUT_DURATION ≤ t →
        checkpw goodpw u.password_hash = true → u.totp_enabled = false →
        (authenticate_user checkpw t
            (authenticate_seq checkpw username wrongpw db [t1, t2, t3, t4, t5]) username
            goodpw).1
          = .success { u with failed_login_attempts := 5,
                              locked_until := some (t5 + LOCKOUT_DURATION) }) := by
  have hA0 := authenticate_seq_wrong checkpw username wrongpw [t1, t2, t3, t4] db u
    hfind hl hwrong (by simp [MAX_LOGIN_ATTEMPTS]; omega)
  have hu4 : ({ u with failed_login_attempts := u.failed_login_attempts + [t1, t2, t3, t4].length,
                       locked_until := none } : User)
      = { u with failed_login_attempts := 4, locked_until := none } := by
    cases u
    simp_all
  rw [hu4] at hA0
  have hsplit : [t1, t2, t3, t4, t5] = [t1, t2, t3, t4] ++ [t5] := rfl
  have hstep5 := authenticate_user_wrong_locks checkpw t5
    (authenticate_seq checkpw username wrongpw db [t1, t2, t3, t4]) username wrongpw
    { u with failed_login_attempts := 4, locked_until := none }
    hA0 rfl hwrong (Nat.le_refl 5)
  have hseq5 : authenticate_seq checkpw username wrongpw db [t1, t2, t3, t4, t5]
      = update_user_login_attempts
          (authenticate_seq checkpw username wrongpw db [t1, t2, t3, t4])
          u.id 5 (some (t5 + LOCKOUT_DURATION)) := by
    rw [hsplit]
    show (authenticate_user checkpw t5
        (authenticate_seq checkpw username wrongpw db [t1, t2, t3, t4]) username wrongpw).2
      = _
    rw [hstep5]
  have hB : get_user_by_username
      (authenticate_seq checkpw username wrongpw db [t1, t2, t3, t4, t5]) username
      = some { u with failed_login_attempts := 5,
                      locked_until := some (t5 + LOCKOUT_DURATION) } := by
    rw [hseq5, get_user_by_username_update_login, hA0]
    simp
  refine ⟨hA0, hB, fun t => rfl, ?_, ?_⟩
  · intro t p ht
    exact authenticate_user_locked checkpw t _ username p _ hB
      (by simp [is_account_locked]; exact ht)
  · intro t ht hgood htotp
    rw [authenticate_user_success checkpw t _ username goodpw _ hB
      (show decide (t < t5 + LOCKOUT_DURATION) = false from
        decide_eq_false (by omega)) hgood htotp]

/-- Witness for C1 on the concrete fixture: five wrong passwords at
times 0..4 lock the account until `4 + LOCKOUT_DURATION`; the correct
password at time 5 is rejected with the generic locked message, and at
time `4 + LOCKOUT_DURATION` it succeeds. -/
theorem claim_C1_witness :
    get_user_by_username (authenticate_seq wCheckpw "admin" "x" wDB [0, 1, 2, 3, 4]) "admin"
      = some { wUser with failed_login_attempts := 5,
                          locked_until := some (4 + LOCKOUT_DURATION) }
    ∧ authenticate_user wCheckpw 5
        (authenticate_seq wCheckpw "admin" "x" wDB [0, 1, 2, 3, 4]) "admin" "pw"
      = (.error MSG_TEMP_LOCKED, authenticate_seq wCheckpw "admin" "x" wDB [0, 1, 2, 3, 4])
    ∧ (authenticate_user wCheckpw (4 + LOCKOUT_DURATION)
        (authenticate_seq wCheckpw "admin" "x" wDB [0, 1, 2, 3, 4]) "admin" "pw").1
      = .success { wUser with failed_login_attempts := 5,
                              locked_until := some (4 + LOCKOUT_DURATION) } := by
  have h := claim_C1 wCheckpw wDB wUser "admin" "x" "pw" 0 1 2 3 4
    (by decide) (by decide) (by decide) (by decide)
  exact ⟨h.2.1, h.2.2.2.1 5 "pw" (by decide),
    h.2.2.2.2 (4 + LOCKOUT_DURATION) (by decide) (by decide) (by decide)⟩

/-- C2 counterexample: on the concrete fixture, the unknown username
`"nobody"` and the existing unlocked account `"admin"` with a wrong
password yield different error values — the caller can distinguish the
two runs, contrary to the claim. -/
theorem claim_C2_counterexample :
    (authenticate_user wCheckpw 0 wDB "nobody" "x").1
      ≠ (authenticate_user wCheckpw 0 wDB "admin" "x").1 := by
  decide

/-- C2 amended: an unknown username yields the bare invalid-credentials
message, while a wrong password on an existing unlocked account below
the threshold yields that same message extended with the
remaining-attempt count; the second message extends the first (shared
prefix), but the two are never equal, so the returned values do
distinguish "no such user" from "wrong password". -/
theorem claim_C2 (checkpw : String → String → Bool) (now : Int) (db : DB)
    (username1 username2 pw1 pw2 : String) (u : User)
    (h1 : get_user_by_username db username1 = none)
    (h2 : get_user_by_username db username2 = some u)
    (hlock : is_account_locked now u = false)
    (hpw : checkpw pw2 u.password_hash = false)
    (hlt : u.failed_login_attempts + 1 < MAX_LOGIN_ATTEMPTS) :
    (authenticate_user checkpw now db username1 pw1).1 = .error MSG_INVALID
    ∧ (authenticate_user checkpw now db username2 pw2).1
        = .error (msg_attempts_remaining
            (MAX_LOGIN_ATTEMPTS - (u.failed_login_attempts + 1)))
    ∧ msg_attempts_remaining (MAX_LOGIN_ATTEMPTS - (u.failed_login_attempts + 1))
        = MSG_INVALID ++ (". "
            ++ toString (MAX_LOGIN_ATTEMPTS - (u.failed_login_attempts + 1))
            ++ " attempts remaining.")
    ∧ (authenticate_user checkpw now db username1 pw1).1
        ≠ (authenticate_user checkpw now db username2 pw2).1 := by
  have e1 : (authenticate_user checkpw now db username1 pw1).1 = .error MSG_INVALID := by
    simp [authenticate_user, h1]
  have e2 : (authenticate_user checkpw now db username2 pw2).1
      = .error (msg_attempts_remaining
          (MAX_LOGIN_ATTEMPTS - (u.failed_login_attempts + 1))) := by
    rw [authenticate_user_wrong_below checkpw now db username2 pw2 u h2 hlock hpw hlt]
  refine ⟨e1, e2, by simp [msg_attempts_remaining, String.append_assoc], ?_⟩
  rw [e1, e2]
  intro hcontra
  have hmsg : MSG_INVALID
      = msg_attempts_remaining (MAX_LOGIN_ATTEMPTS - (u.failed_login_attempts + 1)) := by
    injection hcontra
  have hr : MAX_LOGIN_ATTEMPTS - (u.failed_login_attempts + 1) = 1
      ∨ MAX_LOGIN_ATTEMPTS - (u.failed_login_attempts + 1) = 2
      ∨ MAX_LOGIN_ATTEMPTS - (u.failed_login_attempts + 1) = 3
      ∨ MAX_LOGIN_ATTEMPTS - (u.failed_login_attempts + 1) = 4 := by
    have hm : MAX_LOGIN_ATTEMPTS = 5 := rfl
    omega
  rcases hr with h | h | h | h <;> rw [h] at hmsg <;> exact absurd hmsg (by decide)

/-- Witness for C2 (amended) on the concrete fixture. -/
theorem claim_C2_witness :
    (authenticate_user wCheckpw 0 wDB "nobody" "y").1 = .error MSG_INVALID
    ∧ (authenticate_user wCheckpw 0 wDB "admin" "x").1
        = .error (msg_attempts_remaining (MAX_LOGIN_ATTEMPTS - (0 + 1)))
    ∧ (authenticate_user wCheckpw 0 wDB "nobody" "y").1
        ≠ (authenticate_user wCheckpw 0 wDB "admin" "x").1 := by
  have h := claim_C2 wCheckpw 0 wDB "nobody" "admin" "y" "x" wUser
    (by decide) (by decide) (by decide) (by decide) (by decide)
  exact ⟨h.1, h.2.1, h.2.2.2⟩

/-- C3: a lock whose `locked_until` lies in the past is inert —
`is_account_locked` (a pure function of the row and the clock, with no
write) returns false — and the very next successful password login
(2FA disabled) resets `failed_login_attempts` to 0 and clears
`locked_until`. -/
theorem claim_C3 (checkpw : String → String → Bool) (now : Int) (db : DB)
    (u : User) (username pw : String) (lt : Int)
    (hfind : get_user_by_username db username = some u)
    (hlu : u.locked_until = some lt)
    (hpast : lt ≤ now)
    (hpw : checkpw pw u.password_hash = true)
    (htotp : u.totp_enabled = false) :
    is_account_locked now u = false
    ∧ authenticate_user checkpw now db username pw
        = (.success u, reset_user_login_attempts db u.id)
    ∧ get_user_by_username (reset_user_login_attempts db u.id) username
        = some { u with failed_login_attempts := 0, locked_until := none } := by
  have hlock : is_account_locked now u = false := by
    simp [is_account_locked, hlu]
    omega
  refine ⟨hlock, ?_, ?_⟩
  · exact authenticate_user_success checkpw now db username pw u hfind hlock hpw htotp
  · rw [get_user_by_username_reset_login, hfind]
    simp

/-- The concrete account again, but with an expired lock (until time
10) and a saturated failure counter. -/
def wUserLocked : User :=
  { wUser with failed_login_attempts := 5, locked_until := some 10 }

/-- A concrete database holding just the expired-lock account. -/
def wDBLocked : DB := { users := [wUserLocked], sessions := [] }

/-- Witness for C3: an account locked until time 10, attempted with
the correct password at time 100. -/
theorem claim_C3_witness :
    is_account_locked 100 wUserLocked = false
    ∧ authenticate_user wCheckpw 100 wDBLocked "admin" "pw"
      = (.success wUserLocked, reset_user_login_attempts wDBLocked wUserLocked.id)
    ∧ get_user_by_username (reset_user_login_attempts wDBLocked wUserLocked.id) "admin"
      = some { wUserLocked with failed_login_attempts := 0, locked_until := none } := by
  exact claim_C3 wCheckpw 100 wDBLocked wUserLocked "admin" "pw" 10
    (by decide) (by decide) (by decide) (by decide) (by decide)

/-- C8: on an account whose lock has expired but whose counter was
never reset (at least `MAX_LOGIN_ATTEMPTS`), a single further wrong
password immediately re-locks the account until
`now + LOCKOUT_DURATION` — it does not take another five failures. -/
theorem claim_C8 (checkpw : String → String → Bool) (now : Int) (db : DB)
    (u : User) (username pw : String) (lt : Int)
    (hfind : get_user_by_username db username = some u)
    (hlu : u.locked_until = some lt)
    (hpast : lt ≤ now)
    (hsat : MAX_LOGIN_ATTEMPTS ≤ u.failed_login_attempts)
    (hpw : checkpw pw u.password_hash = false) :
    authenticate_user checkpw now db username pw
      = (.error MSG_NOW_LOCKED,
         update_user_login_attempts db u.id (u.failed_login_attempts + 1)
           (some (now + LOCKOUT_DURATION)))
    ∧ get_user_by_username
        (update_user_login_attempts db u.id (u.failed_login_attempts + 1)
          (some (now + LOCKOUT_DURATION))) username
      = some { u with failed_login_attempts := u.failed_login_attempts + 1,
                      locked_until := some (now + LOCKOUT_DURATION) }
    ∧ (∀ t : Int, t < now + LOCKOUT_DURATION →
        is_account_locked t
          { u with failed_login_attempts := u.failed_login_attempts + 1,
                   locked_until := some (now + LOCKOUT_DURATION) } = true) := by
  have hlock : is_account_locked now u = false := by
    simp [is_account_locked, hlu]
    omega
  refine ⟨authenticate_user_wrong_locks checkpw now db username pw u hfind hlock hpw
      (by omega), ?_, ?_⟩
  · rw [get_user_by_username_update_login, hfind]
    simp
  · intro t ht
    show decide (t < now + LOCKOUT_DURATION) = true
    exact decide_eq_true ht

/-- Witness for C8: the expired-lock account with counter 5 is
re-locked until `100 + LOCKOUT_DURATION` by one wrong password at
time 100. -/
theorem claim_C8_witness :
    authenticate_user wCheckpw 100 wDBLocked "admin" "x"
      = (.error MSG_NOW_LOCKED,
         update_user_login_attempts wDBLocked wUserLocked.id
           (wUserLocked.failed_login_attempts + 1) (some (100 + LOCKOUT_DURATION)))
    ∧ get_user_by_username
        (update_user_login_attempts wDBLocked wUserLocked.id
          (wUserLocked.failed_login_attempts + 1) (some (100 + LOCKOUT_DURATION))) "admin"
      = some { wUserLocked with
          failed_login_attempts := wUserLocked.failed_login_attempts + 1,
          locked_until := some (100 + LOCKOUT_DURATION) }
    ∧ is_account_locked 101
        { wUserLocked with
          failed_login_attempts := wUserLocked.failed_login_attempts + 1,
          locked_until := some (100 + LOCKOUT_DURATION) } = true := by
  have h := claim_C8 wCheckpw 100 wDBLocked wUserLocked "admin" "x" 10
    (by decide) (by decide) (by decide) (by decide) (by decide)
  exact ⟨h.1, h.2.1, h.2.2 101 (by decide)⟩

/-- `reset_user_login_attempts` changes neither ids nor activity
flags, so an id lookup afterwards returns the (possibly updated) row
the lookup returned before. -/
theorem get_user_by_id_reset_login (db : DB) (user_id i : Nat) :
    get_user_by_id (reset_user_login_attempts db user_id) i
      = (get_user_by_id db i).map (fun u =>
          if u.id = user_id then
            { u with failed_login_attempts := 0, locked_until := none }
          else u) := by
  show List.find? _ (db.users.map _) = _
  rw [List.find?_map]
  have hp : ((fun u : User => u.id == i && u.is_active) ∘ (fun u : User =>
        if u.id = user_id then
          { u with failed_login_attempts := 0, locked_until := none }
        else u))
      = (fun u : User => u.id == i && u.is_active) := by
    funext u
    by_cases h : u.id = user_id <;> simp [h]
  rw [hp]
  rfl

/-- `create_user_session` writes only the `sessions` table: the
`users` table afterwards is exactly the one before. -/
theorem create_user_session_users (token : String) (now : Int) (db : DB)
    (user_id : Nat) (ip ua : String) :
    (create_user_session token now db user_id ip ua).2.users = db.users := rfl

/-- An id lookup is unaffected by session creation. -/
theorem get_user_by_id_create_session (token : String) (now : Int) (db : DB)
    (user_id i : Nat) (ip ua : String) :
    get_user_by_id (create_user_session token now db user_id ip ua).2 i
      = get_user_by_id db i := rfl

/-- A positive `verify_totp` forces a non-empty submitted code. -/
theorem verify_totp_code_ne_empty (impl : TOTPImpl) (now : Int)
    (secret code : String) (h : verify_totp impl now secret code = true) :
    (code == "") = false := by
  by_contra hc
  simp at hc
  simp [verify_totp, hc] at h

/-- C4: on an account with 2FA enabled, a correct password yields the
awaiting-second-factor outcome with the database untouched (the
failure counter is not reset); `api_verify_2fa` resets the counter and
lock only after a successful code (having first created the session),
and on a wrong non-empty code returns the invalid-code error with the
database — counter and lock included — untouched. -/
theorem claim_C4 (checkpw : String → String → Bool) (impl : TOTPImpl)
    (tok : String) (now : Int) (db : DB) (u : User)
    (username pw : String) (ip ua : String)
    (hfind : get_user_by_username db username = some u)
    (hlock : is_account_locked now u = false)
    (hpw : checkpw pw u.password_hash = true)
    (htotp : u.totp_enabled = true)
    (hfindid : get_user_by_id db u.id = some u) :
    authenticate_user checkpw now db username pw = (.requires2fa u.id, db)
    ∧ (∀ code : String, verify_totp impl now u.totp_secret code = true →
        api_verify_2fa impl tok now db u.id code ip ua
          = (.success tok,
             reset_user_login_attempts (create_user_session tok now db u.id ip ua).2 u.id)
        ∧ get_user_by_id
            (reset_user_login_attempts (create_user_session tok now db u.id ip ua).2 u.id)
            u.id
          = some { u with failed_login_attempts := 0, locked_until := none })
    ∧ (∀ code : String, code ≠ "" →
        verify_totp impl now u.totp_secret code = false →
        api_verify_2fa impl tok now db u.id code ip ua = (.invalidCode, db)) := by
  refine ⟨authenticate_user_awaiting_2fa checkpw now db username pw u
    hfind hlock hpw htotp, ?_, ?_⟩
  · intro code hverify
    have hcode := verify_totp_code_ne_empty impl now u.totp_secret code hverify
    constructor
    · simp [api_verify_2fa, hcode, hfindid, htotp, hverify, create_user_session]
    · rw [get_user_by_id_reset_login, get_user_by_id_create_session, hfindid]
      simp
  · intro code hcode hverify
    have hcode2 : (code == "") = false := by simpa using hcode
    simp [api_verify_2fa, hcode2, hfindid, htotp, hverify]

/-- The concrete fixture with 2FA enabled and some failed attempts on
record. -/
def wUser2fa : User :=
  { wUser with failed_login_attempts := 3, totp_secret := "S", totp_enabled := true }

/-- A concrete database holding just the 2FA account. -/
def wDB2fa : DB := { users := [wUser2fa], sessions := [] }

/-- A concrete TOTP code derivation: the code names the secret and the
time step. -/
def wTOTP : TOTPImpl := { codeAt := fun s k => s ++ "-" ++ toString k }

/-- Witness for C4 on the 2FA fixture at time 90 (time step 3): the
correct password leaves the state untouched and awaiting 2FA; the
step-3 code resets the counter; the wrong code `"bad"` changes
nothing. -/
theorem claim_C4_witness :
    authenticate_user wCheckpw 90 wDB2fa "admin" "pw" = (.requires2fa wUser2fa.id, wDB2fa)
    ∧ api_verify_2fa wTOTP "tok" 90 wDB2fa wUser2fa.id "S-3" "ip" "ua"
      = (.success "tok",
         reset_user_login_attempts
           (create_user_session "tok" 90 wDB2fa wUser2fa.id "ip" "ua").2 wUser2fa.id)
    ∧ get_user_by_id
        (reset_user_login_attempts
          (create_user_session "tok" 90 wDB2fa wUser2fa.id "ip" "ua").2 wUser2fa.id)
        wUser2fa.id
      = some { wUser2fa with failed_login_attempts := 0, locked_until := none }
    ∧ api_verify_2fa wTOTP "tok" 90 wDB2fa wUser2fa.id "bad" "ip" "ua"
      = (.invalidCode, wDB2fa) := by
  have h := claim_C4 wCheckpw wTOTP "tok" 90 wDB2fa wUser2fa "admin" "pw" "ip" "ua"
    (by decide) (by decide) (by decide) (by decide) (by decide)
  have hgood := h.2.1 "S-3" (by decide)
  exact ⟨h.1, hgood.1, hgood.2, h.2.2 "bad" (by decide) (by decide)⟩

/-- C7: `api_verify_2fa` never consults lock state — on an account
that is locked right now (`locked_until` in the future) with 2FA
enabled, a correct code still issues a session and resets both the
failure counter and the lock. -/
theorem claim_C7 (impl : TOTPImpl) (tok : String) (now : Int) (db : DB)
    (u : User) (code ip ua : String) (lt : Int)
    (hfindid : get_user_by_id db u.id = some u)
    (htotp : u.totp_enabled = true)
    (hlu : u.locked_until = some lt)
    (hfut : now < lt)
    (hverify : verify_totp impl now u.totp_secret code = true) :
    is_account_locked now u = true
    ∧ api_verify_2fa impl tok now db u.id code ip ua
      = (.success tok,
         reset_user_login_attempts (create_user_session tok now db u.id ip ua).2 u.id)
    ∧ get_user_by_id
        (reset_user_login_attempts (create_user_session tok now db u.id ip ua).2 u.id)
        u.id
      = some { u with failed_login_attempts := 0, locked_until := none }
    ∧ (reset_user_login_attempts (create_user_session tok now db u.id ip ua).2 u.id).sessions
      = { user_id := u.id, session_token := tok, ip_address := ip,
          user_agent := if ua == "" then none else some (ua.take 500),
          expires_at := now + SESSION_LIFETIME } :: db.sessions := by
  have hcode := verify_totp_code_ne_empty impl now u.totp_secret code hverify
  refine ⟨?_, ?_, ?_, rfl⟩
  · simp [is_account_locked, hlu]
    exact hfut
  · simp [api_verify_2fa, hcode, hfindid, htotp, hverify, create_user_session]
  · rw [get_user_by_id_reset_login, get_user_by_id_create_session, hfindid]
    simp

/-- The 2FA fixture, currently locked until time 1000. -/
def wUser2faLocked : User :=
  { wUser2fa with failed_login_attempts := 5, locked_until := some 1000 }

/-- A concrete database holding just the locked 2FA account. -/
def wDB2faLocked : DB := { users := [wUser2faLocked], sessions := [] }

/-- Witness for C7: at time 90 the account is still locked (until
1000), yet the correct step-3 code issues a session and clears the
counter and the lock. -/
theorem claim_C7_witness :
    is_account_locked 90 wUser2faLocked = true
    ∧ api_verify_2fa wTOTP "tok" 90 wDB2faLocked wUser2faLocked.id "S-3" "ip" "ua"
      = (.success "tok",
         reset_user_login_attempts
           (create_user_session "tok" 90 wDB2faLocked wUser2faLocked.id "ip" "ua").2
           wUser2faLocked.id)
    ∧ get_user_by_id
        (reset_user_login_attempts
          (create_user_session "tok" 90 wDB2faLocked wUser2faLocked.id "ip" "ua").2
          wUser2faLocked.id)
        wUser2faLocked.id
      = some { wUser2faLocked with failed_login_attempts := 0, locked_until := none } := by
  have h := claim_C7 wTOTP "tok" 90 wDB2faLocked wUser2faLocked "S-3" "ip" "ua" 1000
    (by decide) (by decide) (by decide) (by decide) (by decide)
  exact ⟨h.1, h.2.1, h.2.2.1⟩

/-- C5: `verify_totp` rejects an empty secret and an empty code
outright (whatever the code derivation, i.e. without computing any
code); for a non-empty secret it accepts the code generated for the
current, previous or next time step (when that code is non-empty, as
real six-digit codes are), and rejects a code generated for a step at
distance two or more whenever that code differs from the three
in-window codes. -/
theorem claim_C5 (impl : TOTPImpl) (now : Int) (secret code : String) :
    verify_totp impl now "" code = false
    ∧ verify_totp impl now secret "" = false
    ∧ (∀ offset : Int, (offset = -1 ∨ offset = 0 ∨ offset = 1) →
        secret ≠ "" →
        impl.codeAt secret (totp_timestep now + offset) ≠ "" →
        verify_totp impl now secret (impl.codeAt secret (totp_timestep now + offset)) = true)
    ∧ (∀ offset : Int, (offset ≤ -2 ∨ 2 ≤ offset) →
        impl.codeAt secret (totp_timestep now + -1)
            ≠ impl.codeAt secret (totp_timestep now + offset) →
        impl.codeAt secret (totp_timestep now + 0)
            ≠ impl.codeAt secret (totp_timestep now + offset) →
        impl.codeAt secret (totp_timestep now + 1)
            ≠ impl.codeAt secret (totp_timestep now + offset) →
        verify_totp impl now secret (impl.codeAt secret (totp_timestep now + offset)) = false) := by
  refine ⟨by simp [verify_totp], by simp [verify_totp], ?_, ?_⟩
  · intro offset hoff hs hc
    have hs2 : (secret == "") = false := by simpa using hs
    have hc2 : (impl.codeAt secret (totp_timestep now + offset) == "") = false := by
      simpa using hc
    rcases hoff with h | h | h <;> subst h
    · simp [verify_totp, pyotp_verify, hs2, hc2]
    · have hc3 : (impl.codeAt secret (totp_timestep now) == "") = false := by
        simpa using hc2
      simp [verify_totp, pyotp_verify, hs2, hc3]
    · simp [verify_totp, pyotp_verify, hs2, hc2]
  · intro offset hoff hm1 h0 hp1
    by_cases hs : (secret == "") = true
    · simp [verify_totp, hs]
    · by_cases hc : (impl.codeAt secret (totp_timestep now + offset) == "") = true
      · simp [verify_totp, hc]
      · simp only [Bool.not_eq_true] at hs hc
        have h0b : impl.codeAt secret (totp_timestep now)
            ≠ impl.codeAt secret (totp_timestep now + offset) := by simpa using h0
        simp [verify_totp, pyotp_verify, hs, hc, hm1, h0b, hp1]

/-- Witness for C5 with the concrete code derivation of the fixture:
at time 90 (step 3) the codes for steps 2, 3 and 4 are accepted and
the code for step 5 is rejected; empty secret and empty code are
rejected. -/
theorem claim_C5_witness :
    verify_totp wTOTP 90 "" "S-3" = false
    ∧ verify_totp wTOTP 90 "S" "" = false
    ∧ verify_totp wTOTP 90 "S" (wTOTP.codeAt "S" (totp_timestep 90 + -1)) = true
    ∧ verify_totp wTOTP 90 "S" (wTOTP.codeAt "S" (totp_timestep 90 + 0)) = true
    ∧ verify_totp wTOTP 90 "S" (wTOTP.codeAt "S" (totp_timestep 90 + 1)) = true
    ∧ verify_totp wTOTP 90 "S" (wTOTP.codeAt "S" (totp_timestep 90 + 2)) = false := by
  have h := claim_C5 wTOTP 90 "S" "S-3"
  exact ⟨h.1, h.2.1,
    h.2.2.1 (-1) (by decide) (by decide) (by decide),
    h.2.2.1 0 (by decide) (by decide) (by decide),
    h.2.2.1 1 (by decide) (by decide) (by decide),
    h.2.2.2 2 (by decide) (by decide) (by decide) (by decide)⟩

/-- `delete_user_sessions` writes only the `sessions` table. -/
theorem delete_user_sessions_users (db : DB) (user_id : Nat) :
    (delete_user_sessions db user_id).users = db.users := rfl

/-- `update_user_password` changes neither ids nor activity flags, so
an id lookup afterwards returns the (possibly updated) row the lookup
returned before. -/
theorem get_user_by_id_update_password (db : DB) (user_id i : Nat) (h : String) :
    get_user_by_id (update_user_password db user_id h) i
      = (get_user_by_id db i).map (fun u =>
          if u.id = user_id then
            { u with password_hash := h,
                     password_reset_token := none,
                     password_reset_expires := none }
          else u) := by
  show List.find? _ (db.users.map _) = _
  rw [List.find?_map]
  have hp : ((fun u : User => u.id == i && u.is_active) ∘ (fun u : User =>
        if u.id = user_id then
          { u with password_hash := h,
                   password_reset_token := none,
                   password_reset_expires := none }
        else u))
      = (fun u : User => u.id == i && u.is_active) := by
    funext u
    by_cases hc : u.id = user_id <;> simp [hc]
  rw [hp]
  rfl

/-- Success-path unfolding of `api_reset_password`: with both fields
present, the password long enough and the token lookup a hit, the
handler rewrites the password, clears the token pair and deletes the
account's sessions. -/
theorem api_reset_password_success (hashFn : String → String)
    (now : Int) (db : DB) (token password : String) (u : User)
    (htok : token ≠ "")
    (hlen : PASSWORD_MIN_LENGTH ≤ password.length)
    (hfind : get_user_by_reset_token db now token = some u) :
    api_reset_password hashFn now db token password
      = (.success, delete_user_sessions (update_user_password db u.id (hashFn password)) u.id) := by
  have htok2 : (token == "") = false := by simpa using htok
  have hpw2 : (password == "") = false := by
    have : password ≠ "" := by
      intro hcontra
      rw [hcontra] at hlen
      simp [PASSWORD_MIN_LENGTH] at hlen
    simpa using this
  have hnlt : ¬ password.length < PASSWORD_MIN_LENGTH := by omega
  simp [api_reset_password, htok2, hpw2, hnlt, hfind]

/-- C6: redeeming a valid unexpired reset token succeeds, replaces the
account's password hash, clears the token/expiry pair, and deletes all
of the account's sessions; afterwards the same token fails the lookup,
so a second redemption returns the same invalid-or-expired error that
a token held by no account produces. -/
theorem claim_C6 (hashFn : String → String) (now : Int) (db : DB)
    (token password : String) (u : User)
    (htok : token ≠ "")
    (hlen : PASSWORD_MIN_LENGTH ≤ password.length)
    (hfind : get_user_by_reset_token db now token = some u)
    (huniq : ∀ v ∈ db.users, v.password_reset_token = some token → v.id = u.id) :
    api_reset_password hashFn now db token password
      = (.success, delete_user_sessions (update_user_password db u.id (hashFn password)) u.id)
    ∧ (∀ v ∈ (delete_user_sessions (update_user_password db u.id (hashFn password)) u.id).users,
        v.id = u.id →
        v.password_hash = hashFn password
        ∧ v.password_reset_token = none
        ∧ v.password_reset_expires = none)
    ∧ (∀ s ∈ (delete_user_sessions (update_user_password db u.id (hashFn password)) u.id).sessions,
        s.user_id ≠ u.id)
    ∧ (∀ (now2 : Int) (password2 : String), PASSWORD_MIN_LENGTH ≤ password2.length →
        (api_reset_password hashFn now2
          (delete_user_sessions (update_user_password db u.id (hashFn password)) u.id)
          token password2).1 = .invalidToken)
    ∧ (∀ (token2 password2 : String), token2 ≠ "" →
        PASSWORD_MIN_LENGTH ≤ password2.length →
        (∀ v ∈ db.users, v.password_reset_token ≠ some token2) →
        (api_reset_password hashFn now db token2 password2).1 = .invalidToken) := by
  refine ⟨api_reset_password_success hashFn now db token password u htok hlen hfind,
    ?_, ?_, ?_, ?_⟩
  · intro v hv hvid
    rw [delete_user_sessions_users] at hv
    obtain ⟨w, hw, hwv⟩ := List.mem_map.mp hv
    by_cases hwid : w.id = u.id
    · rw [← hwv]
      simp [hwid]
    · rw [← hwv] at hvid
      simp [hwid] at hvid
  · intro s hs
    have := List.of_mem_filter hs
    simpa using this
  · intro now2 password2 hlen2
    have hnone : get_user_by_reset_token
        (delete_user_sessions (update_user_password db u.id (hashFn password)) u.id)
        now2 token = none := by
      rw [get_user_by_reset_token, List.find?_eq_none]
      intro v hv
      rw [show (delete_user_sessions (update_user_password db u.id (hashFn password)) u.id).users
          = (update_user_password db u.id (hashFn password)).users from rfl] at hv
      obtain ⟨w, hw, hwv⟩ := List.mem_map.mp hv
      by_cases hwid : w.id = u.id
      · rw [← hwv]
        simp [hwid]
      · rw [← hwv]
        simp only [hwid, if_false]
        intro hcontra
        simp at hcontra
        exact hwid (huniq w hw hcontra.1.1)
    have htok2 : (token == "") = false := by simpa using htok
    have hpw2 : (password2 == "") = false := by
      have : password2 ≠ "" := by
        intro hcontra
        rw [hcontra] at hlen2
        simp [PASSWORD_MIN_LENGTH] at hlen2
      simpa using this
    have hnlt : ¬ password2.length < PASSWORD_MIN_LENGTH := by omega
    simp [api_reset_password, htok2, hpw2, hnlt, hnone]
  · intro token2 password2 htok2 hlen2 hnone2
    have hnone : get_user_by_reset_token db now token2 = none := by
      rw [get_user_by_reset_token, List.find?_eq_none]
      intro v hv
      have := hnone2 v hv
      simp [this]
    have htok3 : (token2 == "") = false := by simpa using htok2
    have hpw2 : (password2 == "") = false := by
      have : password2 ≠ "" := by
        intro hcontra
        rw [hcontra] at hlen2
        simp [PASSWORD_MIN_LENGTH] at hlen2
      simpa using this
    have hnlt : ¬ password2.length < PASSWORD_MIN_LENGTH := by omega
    simp [api_reset_password, htok3, hpw2, hnlt, hnone]

/-- A stand-in for `hash_password` in concrete runs. -/
def wHash : String → String := fun p => "H" ++ p

/-- The concrete account holding a live reset token, currently locked
out with a saturated failure counter. -/
def wUserReset : User :=
  { wUser with failed_login_attempts := 5, locked_until := some 2000,
               password_reset_token := some "T", password_reset_expires := some 500 }

/-- A concrete database holding the reset-token account and one live
session of that account. -/
def wDBReset : DB :=
  { users := [wUserReset],
    sessions := [{ user_id := 1, session_token := "s1", ip_address := "ip",
                   user_agent := none, expires_at := 9999 }] }

/-- Witness for C6: redeeming the token `"T"` at time 100 succeeds; a
second redemption of `"T"` and a redemption of the never-issued token
`"Z"` both fail with the same invalid-token outcome. -/
theorem claim_C6_witness :
    api_reset_password wHash 100 wDBReset "T" "newpassword"
      = (.success,
         delete_user_sessions
           (update_user_password wDBReset wUserReset.id (wHash "newpassword")) wUserReset.id)
    ∧ (api_reset_password wHash 100
        (delete_user_sessions
          (update_user_password wDBReset wUserReset.id (wHash "newpassword")) wUserReset.id)
        "T" "newpassword").1 = .invalidToken
    ∧ (api_reset_password wHash 100 wDBReset "Z" "newpassword").1 = .invalidToken := by
  have h := claim_C6 wHash 100 wDBReset "T" "newpassword" wUserReset
    (by decide) (by decide) (by decide) (by decide)
  exact ⟨h.1, h.2.2.2.1 100 "newpassword" (by decide),
    h.2.2.2.2 "Z" "newpassword" (by decide) (by decide) (by decide)⟩

/-- C9: a successful password reset leaves `failed_login_attempts` and
`locked_until` unchanged on every row — only the password hash and the
reset-token pair are rewritten (plus session deletion) — so an account
that is locked out when its token is redeemed is exactly as locked
afterwards. -/
theorem claim_C9 (hashFn : String → String) (now : Int) (db : DB)
    (token password : String) (u : User)
    (htok : token ≠ "")
    (hlen : PASSWORD_MIN_LENGTH ≤ password.length)
    (hfind : get_user_by_reset_token db now token = some u) :
    (api_reset_password hashFn now db token password).2.users.map
        (fun v => (v.failed_login_attempts, v.locked_until))
      = db.users.map (fun v => (v.failed_login_attempts, v.locked_until))
    ∧ (∀ w : User, get_user_by_id db u.id = some w →
        get_user_by_id (api_reset_password hashFn now db token password).2 u.id
          = some { w with password_hash := hashFn password,
                          password_reset_token := none,
                          password_reset_expires := none }
        ∧ (∀ now2 : Int,
            is_account_locked now2
              { w with password_hash := hashFn password,
                       password_reset_token := none,
                       password_reset_expires := none }
            = is_account_locked now2 w)) := by
  rw [api_reset_password_success hashFn now db token password u htok hlen hfind]
  constructor
  · rw [delete_user_sessions_users]
    show (db.users.map _).map _ = _
    rw [List.map_map]
    apply List.map_congr_left
    intro v _
    by_cases h : v.id = u.id <;> simp [h]
  · intro w hw
    have hwid : w.id = u.id := by
      have := List.find?_some hw
      simp at this
      exact this.1
    constructor
    · show get_user_by_id (delete_user_sessions _ _) u.id = _
      have : get_user_by_id
          (delete_user_sessions (update_user_password db u.id (hashFn password)) u.id) u.id
          = get_user_by_id (update_user_password db u.id (hashFn password)) u.id := rfl
      rw [this, get_user_by_id_update_password, hw]
      simp [hwid]
    · intro now2
      rfl

/-- Witness for C9: redeeming the token of the locked fixture account
leaves every row's counter/lock pair unchanged, and the account is
still locked at time 100 afterwards. -/
theorem claim_C9_witness :
    (api_reset_password wHash 100 wDBReset "T" "newpassword").2.users.map
        (fun v => (v.failed_login_attempts, v.locked_until))
      = wDBReset.users.map (fun v => (v.failed_login_attempts, v.locked_until))
    ∧ get_user_by_id (api_reset_password wHash 100 wDBReset "T" "newpassword").2
        wUserReset.id
      = some { wUserReset with password_hash := wHash "newpassword",
                               password_reset_token := none,
                               password_reset_expires := none }
    ∧ is_account_locked 100
        { wUserReset with password_hash := wHash "newpassword",
                          password_reset_token := none,
                          password_reset_expires := none }
      = is_account_locked 100 wUserReset := by
  have h := claim_C9 wHash 100 wDBReset "T" "newpassword" wUserReset
    (by decide) (by decide) (by decide)
  have h2 := h.2 wUserReset (by decide)
  exact ⟨h.1, h2.1, h2.2 100⟩

/-- C10 counterexample: under the interleaved schedule
read-A, read-B, write-A, write-B both wrong-password handlers observe
the pre-increment counter 0 and write the same value 1, losing an
update — the serialized schedule ends at 2, the interleaved one
at 1. -/
theorem claim_C10_counterexample :
    (race_exec "admin" wDB [false, true, false, true]).users.map
        User.failed_login_attempts = [1]
    ∧ (race_exec "admin" wDB [false, false, true, true]).users.map
        User.failed_login_attempts = [2]
    ∧ race_exec "admin" wDB [false, true, false, true]
      ≠ race_exec "admin" wDB [false, false, true, true] := by
  decide

/-- C10 amended: the failed-attempt increment is a non-atomic
read-modify-write — the handler reads the row, adds one in
application code, and writes the computed value with a plain UPDATE —
so two concurrent wrong-password handlers admit an interleaving
(read-A, read-B, write-A, write-B) whose final counter is the initial
count plus one, while serializing them (read-A, write-A, read-B,
write-B) yields plus two. -/
theorem claim_C10 (db : DB) (u : User) (username : String)
    (hfind : get_user_by_username db username = some u) :
    get_user_by_username (race_exec username db [false, true, false, true]) username
      = some { u with failed_login_attempts := u.failed_login_attempts + 1,
                      locked_until := none }
    ∧ get_user_by_username (race_exec username db [false, false, true, true]) username
      = some { u with failed_login_attempts := u.failed_login_attempts + 2,
                      locked_until := none } := by
  constructor
  · simp only [race_exec, List.foldl_cons, List.foldl_nil]
    simp only [race_step, hfind, if_false, if_true, Bool.false_eq_true]
    rw [get_user_by_username_update_login, get_user_by_username_update_login, hfind]
    simp
  · simp only [race_exec, List.foldl_cons, List.foldl_nil]
    simp only [race_step, hfind, if_false, if_true, Bool.false_eq_true]
    rw [get_user_by_username_update_login]
    simp only [get_user_by_username_update_login, hfind]
    simp
    rw [get_user_by_username_update_login, get_user_by_username_update_login, hfind]
    simp

/-- Witness for C10 (amended) on the concrete fixture. -/
theorem claim_C10_witness :
    get_user_by_username (race_exec "admin" wDB [false, true, false, true]) "admin"
      = some { wUser with failed_login_attempts := wUser.failed_login_attempts + 1,
                          locked_until := none }
    ∧ get_user_by_username (race_exec "admin" wDB [false, false, true, true]) "admin"
      = some { wUser with failed_login_attempts := wUser.failed_login_attempts + 2,
                          locked_until := none } := by
  exact claim_C10 wDB wUser "admin" (by decide)

end TegFinance
